import Mathlib

/-!
Shallow embedding of `src/api/call.js` (ednutcodes/Voicednut): a per-call relay
bridging a Twilio media-stream WebSocket with a Deepgram voice-agent WebSocket.

Each WebSocket callback of the source is modelled as a function from the
session state (the closure variables `streamSid`, `customParameters`,
`deepgramWs`, `keepAliveInterval` of the `/outbound-media-stream` handler)
to a new state paired with the ordered list of side effects the callback
performs (sends, closes, timer operations, logs).
-/

/-- Readiness of the Deepgram WebSocket handle (`readyState` in the source).
`connecting` right after `new WebSocket(...)`, `opened` after the `open`
event fired, `closed` after the remote side closed the socket. -/
inductive ReadyState
  | connecting
  | opened
  | closed
deriving DecidableEq, Repr

/-- The `customParameters` object taken from the Twilio `start` event.
Only the two keys the source reads are modelled; `none` means the key is
absent (or not a string). -/
structure Params where
  prompt : Option String
  first_message : Option String
deriving DecidableEq, Repr

/-- The `msg.start` object of a Twilio `start` event: `streamSid` may be
absent/null, `customParameters` may be absent (the source defaults it to
`\x7b\x7d` via `|| {}`). -/
structure StartObj where
  streamSid : Option String
  customParameters : Option Params
deriving DecidableEq, Repr

/-- Closure state of one `/outbound-media-stream` session.
`deepgramWs = none` models the variable being `null`; `some st` models a
live handle object with readyState `st`.  `keepAliveInterval` models the
JS variable being non-null; `intervalActive` models whether the underlying
interval is still armed (the `deepgramWs.on("close")` handler clears the
interval without nulling the variable, so the two can differ). -/
structure SessionState where
  streamSid : Option String
  customParameters : Params
  deepgramWs : Option ReadyState
  keepAliveInterval : Bool
  intervalActive : Bool
deriving DecidableEq, Repr

/-- State right after the telephony socket is accepted:
`streamSid = null`, `customParameters = \x7b\x7d`, no Deepgram handle, no timer. -/
def initSession : SessionState :=
  { streamSid := none
    customParameters := { prompt := none, first_message := none }
    deepgramWs := none
    keepAliveInterval := false
    intervalActive := false }

/-- A JSON command sent on the Deepgram socket. `settings` records the
`agent.think.prompt` field (the only non-constant field of the Settings
message); `audio`'s payload is `Option String` because the source reads
`msg.media.payload`, which may be absent (then `undefined` is serialized). -/
inductive AgentCommand
  | settings (prompt : String)
  | utterance (text : String)
  | audio (payload : Option String)
  | keepAlive
deriving DecidableEq, Repr

/-- A JSON frame sent on the Twilio socket: the source only ever sends
`\x7bevent:"media", streamSid, media:\x7bpayload\x7d\x7d`; `streamSid` is
`Option` because the variable can still be null when the frame is built. -/
inductive TwilioFrame
  | media (streamSid : Option String) (payload : String)
deriving DecidableEq, Repr

/-- One observable side effect of a callback, in program order. -/
inductive Effect
  | sendDeepgram (c : AgentCommand)
  | sendTwilio (f : TwilioFrame)
  | connectDeepgram
  | closeHandle
  | armTimer
  | clearTimer
  | closeTwilio
  | log (tag : String)
  | crash
deriving DecidableEq, Repr

/-- `closeDeepgram` of the source: if the handle variable is non-null,
call `.close()` on it and null it; then, if the interval variable is
non-null, `clearInterval` it and null it — in that order. -/
def closeDeepgram (s : SessionState) : SessionState × List Effect :=
  let (s1, e1) :=
    match s.deepgramWs with
    | some _ => ({ s with deepgramWs := none }, [Effect.closeHandle])
    | none => (s, [])
  let (s2, e2) :=
    if s1.keepAliveInterval then
      ({ s1 with keepAliveInterval := false, intervalActive := false },
       [Effect.clearTimer])
    else (s1, [])
  (s2, e1 ++ e2)

/-- `openDeepgram` of the source, up to attaching the handlers: constructs
a new WebSocket (readyState CONNECTING) and stores it in `deepgramWs`,
overwriting whatever was there. -/
def openDeepgram (s : SessionState) : SessionState × List Effect :=
  ({ s with deepgramWs := some ReadyState.connecting }, [Effect.connectDeepgram])

/-- JS `String.prototype.trim()`: strip leading and trailing whitespace.
Written over the character list so that it evaluates inside the kernel. -/
def jsTrim (s : String) : String :=
  String.mk
    (((s.data.dropWhile Char.isWhitespace).reverse.dropWhile
        Char.isWhitespace).reverse)

/-- The fixed fallback of `customParameters.prompt?.trim() || "..."`. -/
def defaultPrompt : String := "You are a helpful assistant."

/-- JS truthiness of `customParameters.prompt?.trim() || default`:
the trimmed prompt when present and non-blank, else the default. -/
def promptUsed (p : Params) : String :=
  match p.prompt with
  | none => defaultPrompt
  | some q => if jsTrim q = "" then defaultPrompt else jsTrim q

/-- `deepgramWs.on("open")` handler: send the Settings command built from
the captured parameters, send one Utterance iff `first_message` is a
non-blank string, then arm the 20 s keepalive interval.  If the closure
variable `deepgramWs` has been nulled meanwhile, `deepgramWs.send` would
throw on `null` (modelled as `crash`). -/
def dgOpen (s : SessionState) : SessionState × List Effect :=
  match s.deepgramWs with
  | none => (s, [Effect.crash])
  | some _ =>
    let utter : List Effect :=
      match s.customParameters.first_message with
      | some m =>
        if jsTrim m = "" then []
        else [Effect.sendDeepgram (AgentCommand.utterance (jsTrim m))]
      | none => []
    ({ s with deepgramWs := some ReadyState.opened
              keepAliveInterval := true
              intervalActive := true },
     Effect.log "[Deepgram] Connected"
       :: Effect.sendDeepgram (AgentCommand.settings (promptUsed s.customParameters))
       :: utter ++ [Effect.armTimer])

/-- Inbound Deepgram message as the `deepgramWs.on("message")` handler sees
it. `malformed` covers a frame on which `JSON.parse` throws.  For
`agentAudio`, the outer `Option` is the `audio` object (`none` = key absent,
so `msg.audio?.payload` short-circuits to undefined) and the inner `Option`
is the `payload` key (`none` = absent or null). -/
inductive DGMsg
  | malformed
  | utteranceMsg (text : Option String)
  | agentAudio (audio : Option (Option String))
  | agentThinking
  | errorMsg (message : Option String)
  | otherType (t : String)
deriving DecidableEq, Repr

/-- JS truthiness of `msg.audio?.payload`: a present, non-null, non-empty
string. -/
def audioPayloadTruthy (audio : Option (Option String)) : Option String :=
  match audio with
  | some (some p) => if p = "" then none else some p
  | _ => none

/-- `deepgramWs.on("message")` handler: parse; on parse failure log and
drop.  `Utterance`/`AgentThinking` only log; `AgentAudio` sends one media
frame to Twilio iff `msg.audio?.payload` is truthy (note: `streamSid` is
not checked, the frame is tagged with whatever the variable holds);
`Error` closes the Twilio socket then runs `closeDeepgram`; any other
`type` falls through the switch with no effect. -/
def dgMessage (s : SessionState) (m : DGMsg) : SessionState × List Effect :=
  match m with
  | DGMsg.malformed => (s, [Effect.log "[Deepgram] Invalid JSON"])
  | DGMsg.utteranceMsg _ => (s, [Effect.log "[Deepgram] Conversation Text"])
  | DGMsg.agentAudio audio =>
    match audioPayloadTruthy audio with
    | some p => (s, [Effect.sendTwilio (TwilioFrame.media s.streamSid p)])
    | none => (s, [])
  | DGMsg.agentThinking => (s, [Effect.log "[Deepgram] Thinking..."])
  | DGMsg.errorMsg _ =>
    let (s1, e1) := closeDeepgram s
    (s1, Effect.log "[Deepgram] Error" :: Effect.closeTwilio :: e1)
  | DGMsg.otherType _ => (s, [])

/-- `deepgramWs.on("error")` handler: log, `ws.close()`, `closeDeepgram()`. -/
def dgError (s : SessionState) : SessionState × List Effect :=
  let (s1, e1) := closeDeepgram s
  (s1, Effect.log "[Deepgram] WebSocket error" :: Effect.closeTwilio :: e1)

/-- `deepgramWs.on("close")` handler: log and `clearInterval(keepAliveInterval)`
— the interval is disarmed but the variable is left non-null; the handle's
readyState becomes CLOSED but `deepgramWs` itself is not nulled here. -/
def dgClose (s : SessionState) : SessionState × List Effect :=
  let s1 := { s with deepgramWs := s.deepgramWs.map (fun _ => ReadyState.closed) }
  if s1.keepAliveInterval then
    ({ s1 with intervalActive := false },
     [Effect.log "[Deepgram] Disconnected", Effect.clearTimer])
  else (s1, [Effect.log "[Deepgram] Disconnected"])

/-- One firing of the keepalive interval callback: sends `KeepAlive` on
`deepgramWs`; if the variable is null the send would throw. Fires only
while the interval is armed. -/
def kaTick (s : SessionState) : SessionState × List Effect :=
  if s.intervalActive then
    match s.deepgramWs with
    | some _ => (s, [Effect.sendDeepgram AgentCommand.keepAlive])
    | none => (s, [Effect.crash])
  else (s, [])

/-- Inbound Twilio message as `ws.on("message")` sees it. `malformed`
covers JSON.parse failure.  `start`'s argument is the `msg.start` object
(`none` = absent, so `msg.start.streamSid` throws and the catch logs).
`media`'s argument is the `msg.media` object (`none` = absent, so
`msg.media.payload` throws when reached; inner `none` = `payload` key
absent).  `other` is any unrecognized `event` tag. -/
inductive TwilioMsg
  | malformed
  | start (st : Option StartObj)
  | media (m : Option (Option String))
  | stop
  | other (e : String)
deriving DecidableEq, Repr

/-- `ws.on("message")` handler: `start` captures `streamSid` and
`customParameters` then calls `openDeepgram`; `media` forwards the payload
as an Audio command only when `deepgramWs` is non-null with readyState
OPEN, and is otherwise a silent no-op; `stop` logs and runs
`closeDeepgram`; unknown events do nothing; any thrown access on a missing
object is caught and logged. -/
def twilioMessage (s : SessionState) (m : TwilioMsg) : SessionState × List Effect :=
  match m with
  | TwilioMsg.malformed => (s, [Effect.log "Error processing Twilio msg"])
  | TwilioMsg.start st =>
    match st with
    | none => (s, [Effect.log "Error processing Twilio msg"])
    | some o =>
      let s1 := { s with streamSid := o.streamSid
                         customParameters :=
                           o.customParameters.getD { prompt := none, first_message := none } }
      let (s2, e2) := openDeepgram s1
      (s2, Effect.log "Stream started" :: e2)
  | TwilioMsg.media mo =>
    match s.deepgramWs with
    | some ReadyState.opened =>
      (match mo with
       | none => (s, [Effect.log "Error processing Twilio msg"])
       | some p => (s, [Effect.sendDeepgram (AgentCommand.audio p)]))
    | _ => (s, [])
  | TwilioMsg.stop =>
    let (s1, e1) := closeDeepgram s
    (s1, Effect.log "Stream stopped" :: e1)
  | TwilioMsg.other _ => (s, [])

/-- `ws.on("error")` handler: log and `closeDeepgram()`. -/
def twilioError (s : SessionState) : SessionState × List Effect :=
  let (s1, e1) := closeDeepgram s
  (s1, Effect.log "[Twilio] WebSocket error" :: e1)

/-- `ws.on("close")` handler: log and `closeDeepgram()`. -/
def twilioClose (s : SessionState) : SessionState × List Effect :=
  let (s1, e1) := closeDeepgram s
  (s1, Effect.log "Twilio WS closed" :: e1)

/-- `closeDeepgram` invoked `n` times in a row, accumulating effects. -/
def closeDeepgramN : Nat → SessionState → SessionState × List Effect
  | 0, s => (s, [])
  | n + 1, s =>
    let (s1, e1) := closeDeepgram s
    let (s2, e2) := closeDeepgramN n s1
    (s2, e1 ++ e2)

/-- Parsed body of `POST /outbound-call`; each field `none` when absent
(an entirely empty body is all-`none`). -/
structure CallBody where
  number : Option String
  prompt : Option String
  first_message : Option String
deriving DecidableEq, Repr

/-- The three reply shapes of the `POST /outbound-call` handler. -/
inductive CallResponse
  | ok (message : String) (callSid : String)
  | badRequest (error : String)
  | serverError (error : String)
deriving DecidableEq, Repr

/-- JS truthiness of the destructured `number` field: `!number` is true
when the key is absent or the empty string. -/
def numberTruthy (n : Option String) : Option String :=
  match n with
  | some v => if v = "" then none else some v
  | none => none

/-- The `POST /outbound-call` handler.  `issuer` is the awaited outcome of
`twilioClient.calls.create` (`ok sid` = created with that `call.sid`,
`error` = rejected).  Returns the reply together with whether the issuer
request was made at all. -/
def outboundCall (body : CallBody) (issuer : Except Unit String) :
    CallResponse × Bool :=
  match numberTruthy body.number with
  | none => (CallResponse.badRequest "Phone number is required", false)
  | some _ =>
    match issuer with
    | Except.ok sid => (CallResponse.ok "Call initiated" sid, true)
    | Except.error _ => (CallResponse.serverError "Failed to initiate call", true)

/-! ## Helper lemmas -/

/-- Teardown itself never sends anything on the Deepgram socket. -/
theorem closeDeepgram_no_send (s : SessionState) (c : AgentCommand) :
    Effect.sendDeepgram c ∉ (closeDeepgram s).2 := by
  rcases h : s.deepgramWs with _ | w <;>
    by_cases hk : s.keepAliveInterval = true <;>
      simp [closeDeepgram, h, hk]

/-- Teardown on a state whose resources are already released is a complete
no-op: same state, no effect. -/
theorem closeDeepgram_released (s : SessionState)
    (hw : s.deepgramWs = none) (hk : s.keepAliveInterval = false) :
    closeDeepgram s = (s, []) := by
  simp [closeDeepgram, hw, hk]

/-- Iterated teardown on an already-released state stays a no-op. -/
theorem closeDeepgramN_released (n : Nat) (s : SessionState)
    (hw : s.deepgramWs = none) (hk : s.keepAliveInterval = false) :
    closeDeepgramN n s = (s, []) := by
  induction n with
  | zero => rfl
  | succ n ih => simp [closeDeepgramN, closeDeepgram_released s hw hk, ih]

/-- Teardown from a live link closes the handle then clears the timer,
exactly once each, and releases both variables. -/
theorem closeDeepgram_live (s : SessionState) (w : ReadyState)
    (hw : s.deepgramWs = some w) (hk : s.keepAliveInterval = true) :
    closeDeepgram s =
      ({ s with deepgramWs := none, keepAliveInterval := false,
                intervalActive := false },
       [Effect.closeHandle, Effect.clearTimer]) := by
  simp [closeDeepgram, hw, hk]

/-! ## Claims -/

/-- C1: a telephony `media` event with payload `P` arriving while the agent
socket is open results in exactly one `Audio` command on the agent socket,
with payload byte-for-byte equal to `P` and no state change. -/
theorem c1_media_passthrough (s : SessionState) (P : String)
    (h : s.deepgramWs = some ReadyState.opened) :
    twilioMessage s (TwilioMsg.media (some (some P))) =
      (s, [Effect.sendDeepgram (AgentCommand.audio (some P))]) := by
  simp [twilioMessage, h]

theorem c1_media_passthrough_witness :
    twilioMessage { initSession with deepgramWs := some ReadyState.opened }
        (TwilioMsg.media (some (some "QUJD"))) =
      ({ initSession with deepgramWs := some ReadyState.opened },
       [Effect.sendDeepgram (AgentCommand.audio (some "QUJD"))]) :=
  c1_media_passthrough _ "QUJD" rfl

/-- C2: an agent `AgentAudio` message with non-empty payload `Q`, received
once `streamSid` has been set, results in exactly one outbound telephony
frame `media` tagged with the session's streamSid and carrying `Q`
unchanged, with no state change. -/
theorem c2_agent_audio_forward (s : SessionState) (sid Q : String)
    (hs : s.streamSid = some sid) (hQ : Q ≠ "") :
    dgMessage s (DGMsg.agentAudio (some (some Q))) =
      (s, [Effect.sendTwilio (TwilioFrame.media (some sid) Q)]) := by
  simp [dgMessage, audioPayloadTruthy, hQ, hs]

theorem c2_agent_audio_forward_witness :
    dgMessage { initSession with streamSid := some "MZ7",
                                 deepgramWs := some ReadyState.opened }
        (DGMsg.agentAudio (some (some "UU=="))) =
      ({ initSession with streamSid := some "MZ7",
                          deepgramWs := some ReadyState.opened },
       [Effect.sendTwilio (TwilioFrame.media (some "MZ7") "UU==")]) :=
  c2_agent_audio_forward _ "MZ7" "UU==" rfl (by decide)

/-- C3: while the agent socket is absent or not open, no `Audio` command is
ever produced by any telephony event, and a `media` event in particular is
silently dropped: same state (nothing queued), no effect at all. -/
theorem c3_no_audio_while_not_open (s : SessionState) (ev : TwilioMsg)
    (p : Option String) (mo : Option (Option String))
    (h : s.deepgramWs ≠ some ReadyState.opened) :
    Effect.sendDeepgram (AgentCommand.audio p) ∉ (twilioMessage s ev).2 ∧
    twilioMessage s (TwilioMsg.media mo) = (s, []) := by
  have hmedia : ∀ m, twilioMessage s (TwilioMsg.media m) = (s, []) := by
    intro m
    rcases hw : s.deepgramWs with _ | w
    · simp [twilioMessage, hw]
    · cases w
      · simp [twilioMessage, hw]
      · exact absurd hw h
      · simp [twilioMessage, hw]
  refine ⟨?_, hmedia mo⟩
  cases ev with
  | malformed => simp [twilioMessage]
  | start st =>
    cases st with
    | none => simp [twilioMessage]
    | some o => simp [twilioMessage, openDeepgram]
  | media m => rw [hmedia m]; simp
  | stop =>
    intro hmem
    rcases hc : closeDeepgram s with ⟨s1, e1⟩
    simp [twilioMessage, hc] at hmem
    have := closeDeepgram_no_send s (AgentCommand.audio p)
    rw [hc] at this
    exact this hmem
  | other e => simp [twilioMessage]

theorem c3_no_audio_while_not_open_witness :
    Effect.sendDeepgram (AgentCommand.audio (some "QUJD")) ∉
      (twilioMessage initSession (TwilioMsg.media (some (some "QUJD")))).2 ∧
    twilioMessage initSession (TwilioMsg.media (some (some "QUJD"))) =
      (initSession, []) :=
  c3_no_audio_while_not_open initSession (TwilioMsg.media (some (some "QUJD")))
    (some "QUJD") (some (some "QUJD")) (by decide)

/-- C4: teardown is idempotent: invoked `N ≥ 1` times from a state holding a
live handle and an armed timer, the combined effects close the handle
exactly once and clear the timer exactly once (and contain nothing else),
so no invocation after the first touches a released resource. -/
theorem c4_teardown_idempotent (s : SessionState) (N : Nat) (w : ReadyState)
    (hw : s.deepgramWs = some w) (hk : s.keepAliveInterval = true)
    (hN : 1 ≤ N) :
    (closeDeepgramN N s).2 = [Effect.closeHandle, Effect.clearTimer] ∧
    (closeDeepgramN N s).2.count Effect.closeHandle = 1 ∧
    (closeDeepgramN N s).2.count Effect.clearTimer = 1 := by
  obtain ⟨n, rfl⟩ : ∃ n, N = n + 1 :=
    ⟨N - 1, (Nat.succ_pred_eq_of_pos hN).symm⟩
  have h2 : closeDeepgramN (n + 1) s =
      ({ s with deepgramWs := none, keepAliveInterval := false,
                intervalActive := false },
       [Effect.closeHandle, Effect.clearTimer]) := by
    simp [closeDeepgramN, closeDeepgram_live s w hw hk, closeDeepgramN_released]
  rw [h2]
  exact ⟨rfl, rfl, rfl⟩

theorem c4_teardown_idempotent_witness :
    (closeDeepgramN 3 { initSession with deepgramWs := some ReadyState.opened,
                                         keepAliveInterval := true,
                                         intervalActive := true }).2 =
      [Effect.closeHandle, Effect.clearTimer] ∧
    (closeDeepgramN 3 { initSession with deepgramWs := some ReadyState.opened,
                                         keepAliveInterval := true,
                                         intervalActive := true }).2.count
        Effect.closeHandle = 1 ∧
    (closeDeepgramN 3 { initSession with deepgramWs := some ReadyState.opened,
                                         keepAliveInterval := true,
                                         intervalActive := true }).2.count
        Effect.clearTimer = 1 :=
  c4_teardown_idempotent _ 3 ReadyState.opened rfl rfl (by decide)

/-- The `msg.start` object of a `start` event carrying both custom
parameters, as in the C5 scenario. -/
def startBothParams : StartObj :=
  { streamSid := some "MZ1"
    customParameters := some { prompt := some "Be terse",
                               first_message := some "Hi there" } }

/-- Session state after processing that `start` event. -/
def sessionAfterStartBoth : SessionState :=
  (twilioMessage initSession (TwilioMsg.start (some startBothParams))).1

/-- The `msg.start` object of a `start` event with no `customParameters`. -/
def startNoParams : StartObj :=
  { streamSid := some "MZ2", customParameters := none }

/-- Session state after processing that `start` event. -/
def sessionAfterStartNoParams : SessionState :=
  (twilioMessage initSession (TwilioMsg.start (some startNoParams))).1

/-- C5: when the agent socket opens after a `start` carrying
`prompt = "Be terse"` and `first_message = "Hi there"`, the handler sends
exactly one Settings command with prompt `"Be terse"` followed by exactly
one Utterance command with text `"Hi there"`; after a `start` without
custom parameters it sends exactly one Settings command with the fixed
default prompt and no Utterance. -/
theorem c5_settings_and_first_message :
    (dgOpen sessionAfterStartBoth).2 =
      [Effect.log "[Deepgram] Connected",
       Effect.sendDeepgram (AgentCommand.settings "Be terse"),
       Effect.sendDeepgram (AgentCommand.utterance "Hi there"),
       Effect.armTimer] ∧
    (dgOpen sessionAfterStartNoParams).2 =
      [Effect.log "[Deepgram] Connected",
       Effect.sendDeepgram (AgentCommand.settings defaultPrompt),
       Effect.armTimer] := by
  constructor <;> rfl

/-- A live session about to be torn down: handle open, keepalive armed. -/
def teardownState : SessionState :=
  { streamSid := some "MZ3"
    customParameters := { prompt := none, first_message := none }
    deepgramWs := some ReadyState.opened
    keepAliveInterval := true
    intervalActive := true }

/-- C6 counterexample: in `closeDeepgram` the timer cancellation is NOT
before the handle drop — the handle is closed and nulled first, the
interval cleared second, so in the teardown effect list `clearTimer` does
not precede `closeHandle`. -/
theorem c6_close_order_counterexample :
    (closeDeepgram teardownState).2 = [Effect.closeHandle, Effect.clearTimer] ∧
    ¬ ((closeDeepgram teardownState).2.indexOf Effect.clearTimer <
       (closeDeepgram teardownState).2.indexOf Effect.closeHandle) := by
  exact ⟨rfl, by decide⟩

/-- C6 amended: in every teardown from a live link the handle close and the
timer cancellation happen inside the same synchronous invocation (handle
first, timer immediately after); the invocation leaves the interval
disarmed, so no keepalive command is emitted at or after the close. -/
theorem c6_teardown_cancels_timer_atomically (s : SessionState)
    (w : ReadyState) (hw : s.deepgramWs = some w)
    (hk : s.keepAliveInterval = true) :
    (closeDeepgram s).2 = [Effect.closeHandle, Effect.clearTimer] ∧
    (closeDeepgram s).1.intervalActive = false ∧
    kaTick (closeDeepgram s).1 = ((closeDeepgram s).1, []) := by
  rw [closeDeepgram_live s w hw hk]
  exact ⟨rfl, rfl, rfl⟩

theorem c6_teardown_cancels_timer_atomically_witness :
    (closeDeepgram teardownState).2 =
      [Effect.closeHandle, Effect.clearTimer] ∧
    (closeDeepgram teardownState).1.intervalActive = false ∧
    kaTick (closeDeepgram teardownState).1 =
      ((closeDeepgram teardownState).1, []) :=
  c6_teardown_cancels_timer_atomically teardownState ReadyState.opened rfl rfl

/-- C7: a single malformed (unparseable-JSON) frame on either socket is
logged and dropped: the session state is unchanged and the only effect is
the log — no send, no close of either socket, no teardown. -/
theorem c7_malformed_logged_and_dropped (s : SessionState) :
    twilioMessage s TwilioMsg.malformed =
      (s, [Effect.log "Error processing Twilio msg"]) ∧
    dgMessage s DGMsg.malformed =
      (s, [Effect.log "[Deepgram] Invalid JSON"]) := by
  constructor <;> rfl

/-- A session whose `start` event carried no `streamSid`, after the agent
socket opened: the link is live but `streamSid` is still unset. -/
def noSidSession : SessionState :=
  (dgOpen (twilioMessage initSession
      (TwilioMsg.start (some { streamSid := none,
                               customParameters := none }))).1).1

/-- C8 counterexample: an `AgentAudio` message with a non-empty payload
arriving while `streamSid` is still unset is NOT a no-op — the handler
never checks `streamSid` and emits a telephony media frame tagged with the
null streamSid. -/
theorem c8_frame_sent_without_sid_counterexample :
    noSidSession.streamSid = none ∧
    (dgMessage noSidSession (DGMsg.agentAudio (some (some "QQ==")))).2 =
      [Effect.sendTwilio (TwilioFrame.media none "QQ==")] ∧
    (dgMessage noSidSession (DGMsg.agentAudio (some (some "QQ==")))).2 ≠ [] := by
  refine ⟨rfl, rfl, ?_⟩
  decide

/-- C8 amended: if an audio-bearing agent event with a non-empty payload
arrives while `streamSid` is unset, the handler does not no-op: it emits
exactly one telephony media frame anyway, tagged with the null streamSid. -/
theorem c8_no_sid_still_sends (s : SessionState) (Q : String)
    (hs : s.streamSid = none) (hQ : Q ≠ "") :
    dgMessage s (DGMsg.agentAudio (some (some Q))) =
      (s, [Effect.sendTwilio (TwilioFrame.media none Q)]) := by
  simp [dgMessage, audioPayloadTruthy, hQ, hs]

theorem c8_no_sid_still_sends_witness :
    dgMessage noSidSession (DGMsg.agentAudio (some (some "Rw=="))) =
      (noSidSession, [Effect.sendTwilio (TwilioFrame.media none "Rw==")]) :=
  c8_no_sid_still_sends noSidSession "Rw==" rfl (by decide)

/-- C9: an `AgentAudio` message whose `audio` object is absent, whose
`payload` is absent or null, or whose payload is the empty string produces
no outbound telephony frame at all — the handler is a complete no-op. -/
theorem c9_falsy_payload_no_frame (s : SessionState) :
    dgMessage s (DGMsg.agentAudio none) = (s, []) ∧
    dgMessage s (DGMsg.agentAudio (some none)) = (s, []) ∧
    dgMessage s (DGMsg.agentAudio (some (some ""))) = (s, []) := by
  refine ⟨rfl, rfl, ?_⟩
  simp [dgMessage, audioPayloadTruthy]

/-- C10: `POST /outbound-call` replies 400 with an error field whenever the
`number` field is missing (in particular on an entirely empty body) and
makes no issuer request; replies 500 with success:false when the issuer
request fails; and replies 200 with success:true and the call sid on
success. -/
theorem c10_outbound_call_responses (b : CallBody) (i : Except Unit String)
    (n sid : String) (hb : b.number = none) (hn : n ≠ "") :
    outboundCall b i =
      (CallResponse.badRequest "Phone number is required", false) ∧
    outboundCall { b with number := some n } (Except.error ()) =
      (CallResponse.serverError "Failed to initiate call", true) ∧
    outboundCall { b with number := some n } (Except.ok sid) =
      (CallResponse.ok "Call initiated" sid, true) := by
  refine ⟨?_, ?_, ?_⟩ <;> simp [outboundCall, numberTruthy, hb, hn]

theorem c10_outbound_call_responses_witness :
    outboundCall { number := none, prompt := none, first_message := none }
        (Except.error ()) =
      (CallResponse.badRequest "Phone number is required", false) ∧
    outboundCall { number := some "+15550100", prompt := none,
                   first_message := none } (Except.error ()) =
      (CallResponse.serverError "Failed to initiate call", true) ∧
    outboundCall { number := some "+15550100", prompt := none,
                   first_message := none } (Except.ok "CA123") =
      (CallResponse.ok "Call initiated" "CA123", true) :=
  c10_outbound_call_responses
    { number := none, prompt := none, first_message := none }
    (Except.error ()) "+15550100" "CA123" rfl (by decide)
